import Mathlib

/-!
Verification of the DEVDASH backend OAuth server (src/server.js and
src/unnamed/part_000) against its natural-language specification.

The two source files implement the same Express application; part_000
differs in configuration handling (hardcoded credential fallbacks, a
richer health endpoint). Machine integers (JS numbers used as
millisecond timestamps) are modelled as Int; the JS Map holding OAuth
states is modelled as an association list with Map semantics (unique
keys by construction of set/delete, insertion order preserved);
nondeterministic inputs (Math.random token generation, provider HTTP
responses) are oracle parameters.
-/

set_option autoImplicit false
set_option linter.unusedVariables false

namespace DevDash

/-- JS truthiness of a possibly-absent string value (`undefined`/`null`
map to `none`; the empty string is falsy). -/
def jsTruthy : Option String → Bool
  | none => false
  | some s => s != ""

/-- JS `a || b` on a possibly-absent string `a` with string default `b`. -/
def jsOr (a : Option String) (b : String) : String :=
  match a with
  | none => b
  | some s => if s = "" then b else s

/-- JS `!!s` for a plain string `s`. -/
def strTruthy (s : String) : Bool := s != ""

/-- One value of the `oauthStates` map in src/server.js line 50:
`\x7b timestamp: Date.now(), used: false \x7d`. -/
structure StateEntry where
  timestamp : Int
  used : Bool
deriving Repr, DecidableEq

/-- The `oauthStates` JS Map (src/server.js line 32), keyed by state token. -/
abbrev StateStore := List (String × StateEntry)

/-- `oauthStates.get(k)`. -/
def storeGet : StateStore → String → Option StateEntry
  | [], _ => none
  | p :: rest, k => if p.1 = k then some p.2 else storeGet rest k

/-- `oauthStates.set(k, v)` with JS Map semantics: replaces the value at an
existing key in place, otherwise appends at the end. -/
def storeSet : StateStore → String → StateEntry → StateStore
  | [], k, v => [(k, v)]
  | p :: rest, k, v => if p.1 = k then (k, v) :: rest else p :: storeSet rest k v

/-- `oauthStates.delete(k)`. -/
def storeDelete (st : StateStore) (k : String) : StateStore :=
  st.filter (fun p => p.1 != k)

/-- The in-place mutation `stateData.used = true` (src/server.js line 101):
the entry object retrieved from the map is mutated, so the map now holds it
with `used = true`. -/
def markUsed (st : StateStore) (k : String) : StateStore :=
  st.map (fun p => if p.1 = k then (p.1, { p.2 with used := true }) else p)

/-- The sweep predicate of src/server.js line 38:
`now - data.timestamp > 600000` (10 minutes in milliseconds). -/
def expired (now : Int) (e : StateEntry) : Bool := now - e.timestamp > 600000

/-- The periodic cleanup of src/server.js lines 35-42: deletes every entry
whose age exceeds the 10 minute TTL, keeps the rest. -/
def sweep (st : StateStore) (now : Int) : StateStore :=
  st.filter (fun p => ! expired now p.2)

/-- The state-issuing part of the `GET /api/oauth/github/url` handler
(src/server.js lines 47-53). The generated token
`Math.random().toString(36).substring(2) + Date.now().toString(36)` is
nondeterministic, so it enters as the oracle parameter `tok`; the handler
performs no uniqueness check before `oauthStates.set`. -/
def issueState (st : StateStore) (tok : String) (now : Int) : StateStore :=
  storeSet st tok { timestamp := now, used := false }

/-- The check-and-set on the state token inside the
`POST /api/oauth/github/token` handler (src/server.js lines 92-101):
fails when the token is absent or already used, otherwise marks it used.
Returns (success flag, resulting store). -/
def validateAndConsume (st : StateStore) (tok : String) : Bool × StateStore :=
  match storeGet st tok with
  | none => (false, st)
  | some entry => if entry.used then (false, st) else (true, markUsed st tok)

/-- JSON values, used to model the response bodies built with `res.json`. -/
inductive Json where
  | str : String → Json
  | num : Int → Json
  | bool : Bool → Json
  | null : Json
  | obj : List (String × Json) → Json
deriving Repr

mutual

/-- All string leaves occurring in a JSON value. -/
def jsonStrings : Json → List String
  | .str s => [s]
  | .num _ => []
  | .bool _ => []
  | .null => []
  | .obj l => jsonStringsList l

/-- All string leaves occurring in a list of JSON object fields. -/
def jsonStringsList : List (String × Json) → List String
  | [] => []
  | p :: rest => jsonStrings p.2 ++ jsonStringsList rest

end

/-- An HTTP response: status code plus JSON body. -/
structure HttpResponse where
  status : Nat
  body : Json
deriving Repr

/-- `res.status(s).json(\x7b error: msg, success: false \x7d)`. -/
def errorBody (msg : String) : Json :=
  .obj [("error", .str msg), ("success", .bool false)]

/-- The catch-block body of src/server.js lines 172-176:
`\x7b error, details, success: false \x7d`. -/
def errorBodyWithDetails (msg details : String) : Json :=
  .obj [("error", .str msg), ("details", .str details), ("success", .bool false)]

/-- src/server.js lines 85-88. -/
def missingParamResponse : HttpResponse :=
  ⟨400, errorBody "Missing code or state parameter"⟩

/-- src/server.js lines 94-97. -/
def invalidStateResponse : HttpResponse :=
  ⟨400, errorBody "Invalid or expired state parameter"⟩

/-- src/server.js lines 200-203 (404 handler). -/
def notFoundResponse : HttpResponse :=
  ⟨404, errorBody "Endpoint not found"⟩

/-- src/server.js lines 72-75 (URL handler catch block). -/
def urlErrorResponse : HttpResponse :=
  ⟨500, errorBody "Failed to generate OAuth URL"⟩

/-- src/server.js lines 192-195 (error middleware). -/
def internalErrorResponse : HttpResponse :=
  ⟨500, errorBody "Internal server error"⟩

/-- Body of the GitHub token endpoint response, as read by the handler. -/
structure TokenData where
  error : Option String
  error_description : Option String
  access_token : Option String
  token_type : Option String
  scope : Option String
deriving Repr, DecidableEq

/-- Body of the GitHub user endpoint response, as read by the handler. -/
structure UserData where
  login : String
  name : String
  avatar_url : String
  id : Int
deriving Repr, DecidableEq

/-- Oracle for the two outbound provider calls of one exchange attempt:
HTTP-level success flags and the bodies GitHub would return. -/
structure Provider where
  tokenOk : Bool
  tokenStatus : Nat
  tokenData : TokenData
  userOk : Bool
  userData : UserData
deriving Repr, DecidableEq

/-- Process-wide provider credentials (src/server.js lines 22-24). -/
structure Config where
  clientId : String
  clientSecret : String
  frontendUrl : String
deriving Repr, DecidableEq

/-- The `\x7b code, state \x7d` fields of the exchange request body;
`none` models an absent (undefined) field. -/
structure ExchangeRequest where
  code : Option String
  state : Option String
deriving Repr, DecidableEq

/-- Result of one run of the exchange handler: the HTTP response, the
store it leaves behind, and how many outbound provider calls it made. -/
structure ExchangeOutcome where
  response : HttpResponse
  store : StateStore
  outboundCalls : Nat
deriving Repr

/-- Success body of src/server.js lines 157-168. `scope` is forwarded as-is;
`token_type` falls back to "bearer" via JS `||`. -/
def successBody (prov : Provider) : Json :=
  .obj [("access_token", .str (jsOr prov.tokenData.access_token "")),
        ("token_type", .str (jsOr prov.tokenData.token_type "bearer")),
        ("scope", match prov.tokenData.scope with
                  | some s => .str s
                  | none => .null),
        ("user", .obj [("login", .str prov.userData.login),
                       ("name", .str prov.userData.name),
                       ("avatar_url", .str prov.userData.avatar_url),
                       ("id", .num prov.userData.id)]),
        ("success", .bool true)]

/-- The `POST /api/oauth/github/token` handler (src/server.js lines 80-178).
The provider oracle `prov` stands for the network; `cfg` is only read to
build the outbound token request (lines 111-116), never to build a
response. Thrown errors (lines 119-121 and 148-149) land in the catch
block, which responds 500 with the thrown message as `details`. -/
def exchangeToken (cfg : Config) (st : StateStore) (req : ExchangeRequest)
    (prov : Provider) : ExchangeOutcome :=
  if !jsTruthy req.code || !jsTruthy req.state then
    ⟨missingParamResponse, st, 0⟩
  else
    let stateKey := jsOr req.state ""
    match storeGet st stateKey with
    | none => ⟨invalidStateResponse, st, 0⟩
    | some entry =>
      if entry.used then ⟨invalidStateResponse, st, 0⟩
      else
        let st1 := markUsed st stateKey
        if !prov.tokenOk then
          ⟨⟨500, errorBodyWithDetails "Failed to exchange code for access token"
               ("GitHub API responded with " ++ toString prov.tokenStatus)⟩, st1, 1⟩
        else if jsTruthy prov.tokenData.error then
          ⟨⟨400, errorBody (jsOr prov.tokenData.error_description
               (jsOr prov.tokenData.error ""))⟩, st1, 1⟩
        else if !jsTruthy prov.tokenData.access_token then
          ⟨⟨400, errorBody "No access token received from GitHub"⟩, st1, 1⟩
        else if !prov.userOk then
          ⟨⟨500, errorBodyWithDetails "Failed to exchange code for access token"
               "Failed to verify access token"⟩, st1, 2⟩
        else
          ⟨⟨200, successBody prov⟩, storeDelete st1 stateKey, 2⟩

/-- Every string the exchange handler can place into a failure body:
its fixed literals, the interpolated thrown message, and the
provider-controlled error strings (line 127). The client secret is not
among them. -/
def exchangeFailureStrings (prov : Provider) : List String :=
  ["Missing code or state parameter",
   "Invalid or expired state parameter",
   "Failed to exchange code for access token",
   "GitHub API responded with " ++ toString prov.tokenStatus,
   "No access token received from GitHub",
   "Failed to verify access token"] ++
  (match prov.tokenData.error with | some s => [s] | none => []) ++
  (match prov.tokenData.error_description with | some s => [s] | none => [])

/-- src/unnamed/part_000 line 30: the environment variable
GITHUB_CLIENT_ID with the hardcoded literal fallback via JS `||`. -/
def part000ClientId (env : Option String) : String :=
  jsOr env "Ov23lipKSR37cO0HXzxv"

/-- src/unnamed/part_000 line 31: the environment variable
GITHUB_CLIENT_SECRET with the hardcoded literal secret fallback via JS
`||` (the literal embedded in the source). -/
def part000ClientSecret (env : Option String) : String :=
  jsOr env "456284e2860027e46caff42bcc08d7e402e58a4e"

/-- What the startup credential check may do. -/
inductive StartupAction where
  | proceed
  | warnAndProceed
  | exitProcess
deriving Repr, DecidableEq

/-- src/unnamed/part_000 lines 41-43: when either resolved credential is
falsy it only logs a warning; it never calls `process.exit`. -/
def part000Startup (envId envSecret : Option String) : StartupAction :=
  if part000ClientId envId = "" ∨ part000ClientSecret envSecret = ""
  then .warnAndProceed else .proceed

/-- The `environment` presence flags of the part_000 health handler
(lines 54-55): `!!GITHUB_CLIENT_ID` and `!!GITHUB_CLIENT_SECRET`. -/
def part000HealthFlags (envId envSecret : Option String) : Bool × Bool :=
  (strTruthy (part000ClientId envId), strTruthy (part000ClientSecret envSecret))

/-- A concrete user body, used to instantiate theorems. -/
def sampleUser : UserData :=
  ⟨"octocat", "The Octocat", "https://example.test/a.png", 1⟩

/-- A concrete fully-successful provider run. -/
def sampleProvider : Provider :=
  ⟨true, 200, ⟨none, none, some "gho_tok", some "bearer", some "read:user"⟩,
   true, sampleUser⟩

/-- A concrete configuration. -/
def sampleConfig : Config := ⟨"cid", "csecret", "https://front.test"⟩

/-- A concrete provider run whose token response body carries a
provider-level error field. -/
def c8Provider : Provider :=
  ⟨true, 200,
   ⟨some "bad_verification_code",
    some "The code passed is incorrect or expired.", none, none, none⟩,
   true, sampleUser⟩

/-! ## Helper lemmas about the store operations -/

theorem storeGet_markUsed_self (st : StateStore) (k : String) :
    storeGet (markUsed st k) k
      = (storeGet st k).map (fun e => { e with used := true }) := by
  induction st with
  | nil => rfl
  | cons p rest ih =>
    by_cases h : p.1 = k
    · simp [markUsed, storeGet, h]
    · simp [markUsed, storeGet, h] at ih ⊢
      exact ih

theorem storeGet_storeDelete_self (st : StateStore) (k : String) :
    storeGet (storeDelete st k) k = none := by
  induction st with
  | nil => rfl
  | cons p rest ih =>
    by_cases h : p.1 = k
    · simpa [storeDelete, h] using ih
    · simpa [storeDelete, storeGet, h] using ih

theorem validateAndConsume_fst_true (st : StateStore) (tok : String) :
    (validateAndConsume st tok).1 = true
      ↔ ∃ e, storeGet st tok = some e ∧ e.used = false := by
  unfold validateAndConsume
  cases hget : storeGet st tok with
  | none => simp
  | some entry =>
    cases hu : entry.used <;> simp [hu]

/-! ## Helper lemmas about the exchange handler -/

theorem exchangeToken_rejects_of_bad_state
    (cfg : Config) (st : StateStore) (req : ExchangeRequest) (prov : Provider)
    (hc : jsTruthy req.code = true) (hs : jsTruthy req.state = true)
    (hbad : storeGet st (jsOr req.state "") = none
      ∨ ∃ e, storeGet st (jsOr req.state "") = some e ∧ e.used = true) :
    exchangeToken cfg st req prov = ⟨invalidStateResponse, st, 0⟩ := by
  unfold exchangeToken
  rcases hbad with h | ⟨e, he, hu⟩
  · simp [hc, hs, h]
  · simp [hc, hs, he, hu]

theorem exchangeToken_store_after_consume
    (cfg : Config) (st : StateStore) (req : ExchangeRequest) (prov : Provider)
    (e : StateEntry)
    (hc : jsTruthy req.code = true) (hs : jsTruthy req.state = true)
    (he : storeGet st (jsOr req.state "") = some e) (hu : e.used = false) :
    (exchangeToken cfg st req prov).store = markUsed st (jsOr req.state "")
    ∨ (exchangeToken cfg st req prov).store
        = storeDelete (markUsed st (jsOr req.state "")) (jsOr req.state "") := by
  unfold exchangeToken
  cases htok : prov.tokenOk with
  | false => simp [hc, hs, he, hu, htok]
  | true =>
    cases herr : jsTruthy prov.tokenData.error with
    | true => simp [hc, hs, he, hu, htok, herr]
    | false =>
      cases hat : jsTruthy prov.tokenData.access_token with
      | false => simp [hc, hs, he, hu, htok, herr, hat]
      | true =>
        cases huok : prov.userOk with
        | false => simp [hc, hs, he, hu, htok, herr, hat, huok]
        | true => simp [hc, hs, he, hu, htok, herr, hat, huok]

theorem exchangeToken_success_eq
    (cfg : Config) (st : StateStore) (req : ExchangeRequest) (prov : Provider)
    (e : StateEntry)
    (hc : jsTruthy req.code = true) (hs : jsTruthy req.state = true)
    (he : storeGet st (jsOr req.state "") = some e) (hu : e.used = false)
    (h1 : prov.tokenOk = true) (h2 : jsTruthy prov.tokenData.error = false)
    (h3 : jsTruthy prov.tokenData.access_token = true)
    (h4 : prov.userOk = true) :
    exchangeToken cfg st req prov =
      ⟨⟨200, successBody prov⟩,
       storeDelete (markUsed st (jsOr req.state "")) (jsOr req.state ""), 2⟩ := by
  unfold exchangeToken
  simp [hc, hs, he, hu, h1, h2, h3, h4]

/-! ## Claim theorems -/

/-- C1: the state check of the exchange step succeeds iff the token is in
the store and not yet consumed; a successful consumption can never be
repeated; a token that is absent or already consumed is always rejected. -/
theorem validateAndConsume_single_use (st : StateStore) (tok : String) :
    ((validateAndConsume st tok).1 = true
      ↔ ∃ e, storeGet st tok = some e ∧ e.used = false)
    ∧ ((validateAndConsume st tok).1 = true →
        (validateAndConsume (validateAndConsume st tok).2 tok).1 = false)
    ∧ (storeGet st tok = none → (validateAndConsume st tok).1 = false)
    ∧ (∀ e, storeGet st tok = some e → e.used = true →
        (validateAndConsume st tok).1 = false) := by
  refine ⟨validateAndConsume_fst_true st tok, ?_, ?_, ?_⟩
  · intro h
    obtain ⟨e, hget, hu⟩ := (validateAndConsume_fst_true st tok).1 h
    have hsnd : (validateAndConsume st tok).2 = markUsed st tok := by
      unfold validateAndConsume
      rw [hget]
      simp [hu]
    rw [hsnd]
    unfold validateAndConsume
    rw [storeGet_markUsed_self, hget]
    simp
  · intro h
    unfold validateAndConsume
    rw [h]
  · intro e hget hu
    unfold validateAndConsume
    rw [hget]
    simp [hu]

/-- Witness for C1 at a concrete store and token. -/
theorem validateAndConsume_single_use_witness :
    (validateAndConsume [("s1", ⟨0, false⟩)] "s1").1 = true :=
  ((validateAndConsume_single_use [("s1", ⟨0, false⟩)] "s1").1).2
    ⟨⟨0, false⟩, rfl, rfl⟩

/-- C2: an exchange request with an absent (or falsy) code or state is
answered with the fixed 400 missing-parameter response, the store is left
untouched, and no outbound provider call is made. -/
theorem exchange_missing_param (cfg : Config) (st : StateStore)
    (req : ExchangeRequest) (prov : Provider)
    (h : jsTruthy req.code = false ∨ jsTruthy req.state = false) :
    exchangeToken cfg st req prov = ⟨missingParamResponse, st, 0⟩
    ∧ missingParamResponse.status = 400 := by
  refine ⟨?_, rfl⟩
  unfold exchangeToken
  rcases h with h | h <;> simp [h]

/-- Witness for C2: a request without a code makes zero outbound calls. -/
theorem exchange_missing_param_witness :
    exchangeToken ⟨"cid", "csecret", "https://front.test"⟩ []
        ⟨none, some "s1"⟩ sampleProvider = ⟨missingParamResponse, [], 0⟩
    ∧ missingParamResponse.status = 400 :=
  exchange_missing_param _ _ _ _ (Or.inl rfl)

/-- C4: the sweep keeps exactly the entries whose age is within the fixed
10 minute TTL and removes exactly those whose age exceeds it, regardless
of their consumed flag. -/
theorem sweep_removes_exactly_expired (st : StateStore) (now : Int)
    (tok : String) (e : StateEntry) :
    (tok, e) ∈ sweep st now ↔ ((tok, e) ∈ st ∧ ¬ now - e.timestamp > 600000) := by
  simp [sweep, expired, List.mem_filter]

/-- Witness for C4: a never-consumed entry older than the TTL is gone and
a fresh one remains. -/
theorem sweep_removes_exactly_expired_witness :
    ("old1", (⟨0, false⟩ : StateEntry)) ∉ sweep [("old1", ⟨0, false⟩), ("new1", ⟨600000, false⟩)] 600001
    ∧ ("new1", (⟨600000, false⟩ : StateEntry)) ∈ sweep [("old1", ⟨0, false⟩), ("new1", ⟨600000, false⟩)] 600001 := by
  constructor
  · intro hmem
    have h := (sweep_removes_exactly_expired
      [("old1", ⟨0, false⟩), ("new1", ⟨600000, false⟩)] 600001 "old1" ⟨0, false⟩).1 hmem
    exact h.2 (by decide)
  · exact (sweep_removes_exactly_expired
      [("old1", ⟨0, false⟩), ("new1", ⟨600000, false⟩)] 600001 "new1" ⟨600000, false⟩).2
      ⟨by decide, by decide⟩

/-- C5 (code bug): the URL handler performs no uniqueness check on the
generated token. When the nondeterministically generated token collides
with one already stored, `oauthStates.set` silently overwrites the old
entry: the returned token is not unique within the store contents and the
call has a side effect beyond insertion. -/
theorem issueState_collision_overwrites :
    issueState [("t0", ⟨0, true⟩)] "t0" 1000 = [("t0", ⟨1000, false⟩)]
    ∧ storeGet (issueState [("t0", ⟨0, true⟩)] "t0" 1000) "t0" ≠ some ⟨0, true⟩
    ∧ (issueState [("t0", ⟨0, true⟩)] "t0" 1000).length
        = ([("t0", ⟨0, true⟩)] : StateStore).length := by
  refine ⟨rfl, ?_, rfl⟩
  intro h
  simp [issueState, storeSet, storeGet] at h

/-- C10: in part_000 the resolved GitHub credentials are non-empty for
every environment (hardcoded fallbacks fill in for absent or empty
variables), startup never exits the process, and both health presence
flags are always true. -/
theorem part000_credentials_always_present (envId envSecret : Option String) :
    part000ClientId envId ≠ "" ∧ part000ClientSecret envSecret ≠ ""
    ∧ part000Startup envId envSecret ≠ StartupAction.exitProcess
    ∧ part000HealthFlags envId envSecret = (true, true) := by
  have h1 : part000ClientId envId ≠ "" := by
    unfold part000ClientId jsOr
    cases envId with
    | none => simp
    | some s =>
      by_cases h : s = "" <;> simp [h]
  have h2 : part000ClientSecret envSecret ≠ "" := by
    unfold part000ClientSecret jsOr
    cases envSecret with
    | none => simp
    | some s =>
      by_cases h : s = "" <;> simp [h]
  refine ⟨h1, h2, ?_, ?_⟩
  · unfold part000Startup
    simp [h1, h2]
  · simp [part000HealthFlags, strTruthy, bne_iff_ne, h1, h2]

/-- C6 is false on the code: immediately after a successful
validateAndConsume the entry is still in the store (marked used), not
deleted. -/
theorem consume_does_not_delete :
    (validateAndConsume [("s1", ⟨0, false⟩)] "s1").1 = true
    ∧ storeGet (validateAndConsume [("s1", ⟨0, false⟩)] "s1").2 "s1"
        = some ⟨0, true⟩
    ∧ storeGet (validateAndConsume [("s1", ⟨0, false⟩)] "s1").2 "s1" ≠ none := by
  refine ⟨rfl, rfl, ?_⟩
  intro h
  simp [validateAndConsume, storeGet, markUsed] at h

/-- C6 amended: a successful validateAndConsume leaves the entry in the
store with used = true. For every provider outcome of the exchange that
consumed it, the entry is deleted exactly when the exchange fully
succeeds (src/server.js line 155): on the 200 response the entry is gone,
and on every non-200 outcome it is still in the store, marked consumed,
where only the expiry sweep can remove it. -/
theorem consume_marks_entry_delete_at_success_end
    (cfg : Config) (st : StateStore) (req : ExchangeRequest) (prov : Provider)
    (e : StateEntry)
    (hc : jsTruthy req.code = true) (hs : jsTruthy req.state = true)
    (he : storeGet st (jsOr req.state "") = some e) (hu : e.used = false) :
    storeGet (validateAndConsume st (jsOr req.state "")).2 (jsOr req.state "")
        = some { e with used := true }
    ∧ ((exchangeToken cfg st req prov).response.status = 200 →
        storeGet (exchangeToken cfg st req prov).store (jsOr req.state "") = none)
    ∧ ((exchangeToken cfg st req prov).response.status ≠ 200 →
        storeGet (exchangeToken cfg st req prov).store (jsOr req.state "")
          = some { e with used := true }) := by
  have hmark : storeGet (markUsed st (jsOr req.state "")) (jsOr req.state "")
      = some { e with used := true } := by
    rw [storeGet_markUsed_self, he]
    rfl
  have hcases :
      ((exchangeToken cfg st req prov).response.status ≠ 200
        ∧ (exchangeToken cfg st req prov).store = markUsed st (jsOr req.state ""))
      ∨ ((exchangeToken cfg st req prov).response.status = 200
        ∧ (exchangeToken cfg st req prov).store
            = storeDelete (markUsed st (jsOr req.state "")) (jsOr req.state "")) := by
    cases htok : prov.tokenOk with
    | false =>
      refine Or.inl ?_
      have heq : exchangeToken cfg st req prov =
          ⟨⟨500, errorBodyWithDetails "Failed to exchange code for access token"
              ("GitHub API responded with " ++ toString prov.tokenStatus)⟩,
           markUsed st (jsOr req.state ""), 1⟩ := by
        unfold exchangeToken
        simp [hc, hs, he, hu, htok]
      rw [heq]
      exact ⟨by simp, rfl⟩
    | true =>
      cases herr : jsTruthy prov.tokenData.error with
      | true =>
        refine Or.inl ?_
        have heq : exchangeToken cfg st req prov =
            ⟨⟨400, errorBody (jsOr prov.tokenData.error_description
                (jsOr prov.tokenData.error ""))⟩,
             markUsed st (jsOr req.state ""), 1⟩ := by
          unfold exchangeToken
          simp [hc, hs, he, hu, htok, herr]
        rw [heq]
        exact ⟨by simp, rfl⟩
      | false =>
        cases hat : jsTruthy prov.tokenData.access_token with
        | false =>
          refine Or.inl ?_
          have heq : exchangeToken cfg st req prov =
              ⟨⟨400, errorBody "No access token received from GitHub"⟩,
               markUsed st (jsOr req.state ""), 1⟩ := by
            unfold exchangeToken
            simp [hc, hs, he, hu, htok, herr, hat]
          rw [heq]
          exact ⟨by simp, rfl⟩
        | true =>
          cases huok : prov.userOk with
          | false =>
            refine Or.inl ?_
            have heq : exchangeToken cfg st req prov =
                ⟨⟨500, errorBodyWithDetails
                    "Failed to exchange code for access token"
                    "Failed to verify access token"⟩,
                 markUsed st (jsOr req.state ""), 2⟩ := by
              unfold exchangeToken
              simp [hc, hs, he, hu, htok, herr, hat, huok]
            rw [heq]
            exact ⟨by simp, rfl⟩
          | true =>
            refine Or.inr ?_
            rw [exchangeToken_success_eq cfg st req prov e hc hs he hu
              htok herr hat huok]
            exact ⟨rfl, rfl⟩
  refine ⟨?_, ?_, ?_⟩
  · have hsnd : (validateAndConsume st (jsOr req.state "")).2
        = markUsed st (jsOr req.state "") := by
      unfold validateAndConsume
      rw [he]
      simp [hu]
    rw [hsnd]
    exact hmark
  · intro h200
    rcases hcases with ⟨hne, _⟩ | ⟨_, hst⟩
    · exact absurd h200 hne
    · rw [hst]
      exact storeGet_storeDelete_self _ _
  · intro hne
    rcases hcases with ⟨_, hst⟩ | ⟨h200, _⟩
    · rw [hst]
      exact hmark
    · exact absurd h200 hne

/-- Witness for the amended C6: at a fully successful concrete run the
entry is gone at the end, and at a failed concrete run (provider rejects
the code) it is still stored, marked consumed. -/
theorem consume_marks_entry_delete_at_success_end_witness :
    storeGet (exchangeToken sampleConfig [("s6", ⟨5, false⟩)]
        ⟨some "c6", some "s6"⟩ sampleProvider).store (jsOr (some "s6") "") = none
    ∧ storeGet (exchangeToken sampleConfig [("s6f", ⟨5, false⟩)]
        ⟨some "c6", some "s6f"⟩ c8Provider).store (jsOr (some "s6f") "")
        = some ⟨5, true⟩ :=
  ⟨(consume_marks_entry_delete_at_success_end sampleConfig [("s6", ⟨5, false⟩)]
      ⟨some "c6", some "s6"⟩ sampleProvider ⟨5, false⟩ rfl rfl rfl rfl).2.1 rfl,
   (consume_marks_entry_delete_at_success_end sampleConfig [("s6f", ⟨5, false⟩)]
      ⟨some "c6", some "s6f"⟩ c8Provider ⟨5, false⟩ rfl rfl rfl rfl).2.2
      (by decide)⟩

/-- C3: once an exchange has consumed a state token, the token can never
validate again, whatever the outcome of the consuming exchange: the next
exchange request presenting it is answered with the fixed invalid-state
response (and leaves the store unchanged, so later attempts fare no
better). -/
theorem consumed_state_never_replayable
    (cfg cfg2 : Config) (st : StateStore) (req req2 : ExchangeRequest)
    (prov prov2 : Provider) (e : StateEntry)
    (hc : jsTruthy req.code = true) (hs : jsTruthy req.state = true)
    (he : storeGet st (jsOr req.state "") = some e) (hu : e.used = false)
    (hs2 : req2.state = req.state) (hc2 : jsTruthy req2.code = true) :
    exchangeToken cfg2 (exchangeToken cfg st req prov).store req2 prov2
        = ⟨invalidStateResponse, (exchangeToken cfg st req prov).store, 0⟩
    ∧ (validateAndConsume (exchangeToken cfg st req prov).store
        (jsOr req.state "")).1 = false := by
  have hbad : storeGet (exchangeToken cfg st req prov).store (jsOr req.state "") = none
      ∨ ∃ e2, storeGet (exchangeToken cfg st req prov).store (jsOr req.state "")
          = some e2 ∧ e2.used = true := by
    rcases exchangeToken_store_after_consume cfg st req prov e hc hs he hu with
      hst | hst
    · right
      refine ⟨{ e with used := true }, ?_, rfl⟩
      rw [hst, storeGet_markUsed_self, he]
      rfl
    · left
      rw [hst]
      exact storeGet_storeDelete_self _ _
  constructor
  · have hs2t : jsTruthy req2.state = true := by rw [hs2]; exact hs
    have hkey : jsOr req2.state "" = jsOr req.state "" := by rw [hs2]
    exact exchangeToken_rejects_of_bad_state cfg2 _ req2 prov2 hc2 hs2t
      (by rw [hkey]; exact hbad)
  · rcases hbad with h | ⟨e2, he2, hu2⟩
    · unfold validateAndConsume
      rw [h]
    · unfold validateAndConsume
      rw [he2]
      simp [hu2]

/-- Witness for C3: a state consumed by a failed exchange (provider
rejects the code) is rejected on replay. -/
theorem consumed_state_never_replayable_witness :
    exchangeToken sampleConfig
        (exchangeToken sampleConfig [("s3", ⟨0, false⟩)]
          ⟨some "c3", some "s3"⟩ c8Provider).store
        ⟨some "c3", some "s3"⟩ c8Provider
      = ⟨invalidStateResponse,
         (exchangeToken sampleConfig [("s3", ⟨0, false⟩)]
           ⟨some "c3", some "s3"⟩ c8Provider).store, 0⟩ :=
  (consumed_state_never_replayable sampleConfig sampleConfig [("s3", ⟨0, false⟩)]
    ⟨some "c3", some "s3"⟩ ⟨some "c3", some "s3"⟩ c8Provider c8Provider
    ⟨0, false⟩ rfl rfl rfl rfl rfl rfl).1

/-- C7: a fully successful exchange answers 200 with exactly the provider
access token, the token type defaulted to "bearer" when the provider
omits it, the granted scope, and exactly the four profile fields login,
name, avatar_url and id. -/
theorem exchange_success_response
    (cfg : Config) (st : StateStore) (req : ExchangeRequest) (prov : Provider)
    (e : StateEntry)
    (hc : jsTruthy req.code = true) (hs : jsTruthy req.state = true)
    (he : storeGet st (jsOr req.state "") = some e) (hu : e.used = false)
    (h1 : prov.tokenOk = true) (h2 : jsTruthy prov.tokenData.error = false)
    (h3 : jsTruthy prov.tokenData.access_token = true)
    (h4 : prov.userOk = true) :
    (exchangeToken cfg st req prov).response =
      ⟨200, Json.obj
        [("access_token", .str (jsOr prov.tokenData.access_token "")),
         ("token_type", .str (jsOr prov.tokenData.token_type "bearer")),
         ("scope", match prov.tokenData.scope with
                   | some s => .str s
                   | none => .null),
         ("user", .obj [("login", .str prov.userData.login),
                        ("name", .str prov.userData.name),
                        ("avatar_url", .str prov.userData.avatar_url),
                        ("id", .num prov.userData.id)]),
         ("success", .bool true)]⟩
    ∧ (∀ t, prov.tokenData.access_token = some t →
        jsOr prov.tokenData.access_token "" = t)
    ∧ (prov.tokenData.token_type = none →
        jsOr prov.tokenData.token_type "bearer" = "bearer") := by
  refine ⟨?_, ?_, ?_⟩
  · rw [exchangeToken_success_eq cfg st req prov e hc hs he hu h1 h2 h3 h4]
    rfl
  · intro t ht
    unfold jsTruthy at h3
    rw [ht] at h3 ⊢
    unfold jsOr
    simp [bne_iff_ne] at h3
    simp [h3]
  · intro ht
    rw [ht]
    rfl

/-- Witness for C7 at a concrete successful run. -/
theorem exchange_success_response_witness :
    (exchangeToken sampleConfig [("s7", ⟨0, false⟩)]
        ⟨some "c7", some "s7"⟩ sampleProvider).response =
      ⟨200, Json.obj
        [("access_token", .str "gho_tok"),
         ("token_type", .str "bearer"),
         ("scope", .str "read:user"),
         ("user", .obj [("login", .str "octocat"),
                        ("name", .str "The Octocat"),
                        ("avatar_url", .str "https://example.test/a.png"),
                        ("id", .num 1)]),
         ("success", .bool true)]⟩ :=
  (exchange_success_response sampleConfig [("s7", ⟨0, false⟩)]
    ⟨some "c7", some "s7"⟩ sampleProvider ⟨0, false⟩
    rfl rfl rfl rfl rfl rfl rfl rfl).1

/-- C8 is false on the code: a provider-level error field in the token
response body is answered with HTTP status 400, not 500, though the
provider description is propagated. -/
theorem upstream_body_error_counterexample :
    (exchangeToken sampleConfig [("s8", ⟨0, false⟩)]
        ⟨some "c8", some "s8"⟩ c8Provider).response.status = 400
    ∧ (exchangeToken sampleConfig [("s8", ⟨0, false⟩)]
        ⟨some "c8", some "s8"⟩ c8Provider).response.status ≠ 500
    ∧ (exchangeToken sampleConfig [("s8", ⟨0, false⟩)]
        ⟨some "c8", some "s8"⟩ c8Provider).response.body
        = errorBody "The code passed is incorrect or expired." := by
  refine ⟨rfl, ?_, rfl⟩
  intro h
  have h400 : (exchangeToken sampleConfig [("s8", ⟨0, false⟩)]
      ⟨some "c8", some "s8"⟩ c8Provider).response.status = 400 := rfl
  rw [h400] at h
  exact absurd h (by decide)

/-- C8 amended: when the token response body carries a provider-level
error field, the exchange responds with status 400 and the provider
description (falling back to the error code) as the error message. -/
theorem upstream_body_error_propagates_400
    (cfg : Config) (st : StateStore) (req : ExchangeRequest) (prov : Provider)
    (e : StateEntry)
    (hc : jsTruthy req.code = true) (hs : jsTruthy req.state = true)
    (he : storeGet st (jsOr req.state "") = some e) (hu : e.used = false)
    (h1 : prov.tokenOk = true)
    (h2 : jsTruthy prov.tokenData.error = true) :
    (exchangeToken cfg st req prov).response
      = ⟨400, errorBody (jsOr prov.tokenData.error_description
            (jsOr prov.tokenData.error ""))⟩ := by
  unfold exchangeToken
  simp [hc, hs, he, hu, h1, h2]

/-- Witness for the amended C8 at a concrete run. -/
theorem upstream_body_error_propagates_400_witness :
    (exchangeToken sampleConfig [("s8b", ⟨0, false⟩)]
        ⟨some "c8b", some "s8b"⟩ c8Provider).response
      = ⟨400, errorBody "The code passed is incorrect or expired."⟩ :=
  upstream_body_error_propagates_400 sampleConfig [("s8b", ⟨0, false⟩)]
    ⟨some "c8b", some "s8b"⟩ c8Provider ⟨0, false⟩ rfl rfl rfl rfl rfl rfl

theorem jsonStrings_errorBody (m : String) : jsonStrings (errorBody m) = [m] := by
  simp [errorBody, jsonStrings, jsonStringsList]

theorem jsonStrings_errorBodyWithDetails (m d : String) :
    jsonStrings (errorBodyWithDetails m d) = [m, d] := by
  simp [errorBodyWithDetails, jsonStrings, jsonStringsList]

theorem error_message_mem (prov : Provider)
    (h2 : jsTruthy prov.tokenData.error = true) :
    jsOr prov.tokenData.error_description (jsOr prov.tokenData.error "")
      ∈ exchangeFailureStrings prov := by
  cases herr : prov.tokenData.error with
  | none =>
    rw [herr] at h2
    exact absurd h2 (by simp [jsTruthy])
  | some s =>
    rw [herr] at h2
    have hsne : s ≠ "" := by simpa [jsTruthy, bne_iff_ne] using h2
    have hjs : jsOr (some s) "" = s := by simp [jsOr, hsne]
    cases hd : prov.tokenData.error_description with
    | none => simp [jsOr, hsne, exchangeFailureStrings, herr, hd]
    | some d =>
      by_cases hde : d = ""
      · simp [jsOr, hde, hsne, exchangeFailureStrings, herr, hd]
      · simp [jsOr, hde, exchangeFailureStrings, herr, hd]

theorem exchange_failure_body_strings
    (cfg : Config) (st : StateStore) (req : ExchangeRequest) (prov : Provider)
    (s : String)
    (hmem : s ∈ jsonStrings (exchangeToken cfg st req prov).response.body)
    (hfail : (exchangeToken cfg st req prov).response.status ≠ 200) :
    s ∈ exchangeFailureStrings prov := by
  cases hcode : jsTruthy req.code with
  | false =>
    have heq : exchangeToken cfg st req prov = ⟨missingParamResponse, st, 0⟩ := by
      unfold exchangeToken
      simp [hcode]
    rw [heq] at hmem
    simp [missingParamResponse, jsonStrings_errorBody] at hmem
    simp [exchangeFailureStrings, hmem]
  | true =>
    cases hstate : jsTruthy req.state with
    | false =>
      have heq : exchangeToken cfg st req prov = ⟨missingParamResponse, st, 0⟩ := by
        unfold exchangeToken
        simp [hcode, hstate]
      rw [heq] at hmem
      simp [missingParamResponse, jsonStrings_errorBody] at hmem
      simp [exchangeFailureStrings, hmem]
    | true =>
      cases hget : storeGet st (jsOr req.state "") with
      | none =>
        have heq : exchangeToken cfg st req prov = ⟨invalidStateResponse, st, 0⟩ :=
          exchangeToken_rejects_of_bad_state cfg st req prov hcode hstate (Or.inl hget)
        rw [heq] at hmem
        simp [invalidStateResponse, jsonStrings_errorBody] at hmem
        simp [exchangeFailureStrings, hmem]
      | some entry =>
        cases hused : entry.used with
        | true =>
          have heq : exchangeToken cfg st req prov = ⟨invalidStateResponse, st, 0⟩ :=
            exchangeToken_rejects_of_bad_state cfg st req prov hcode hstate
              (Or.inr ⟨entry, hget, hused⟩)
          rw [heq] at hmem
          simp [invalidStateResponse, jsonStrings_errorBody] at hmem
          simp [exchangeFailureStrings, hmem]
        | false =>
          cases htok : prov.tokenOk with
          | false =>
            have heq : exchangeToken cfg st req prov =
                ⟨⟨500, errorBodyWithDetails "Failed to exchange code for access token"
                    ("GitHub API responded with " ++ toString prov.tokenStatus)⟩,
                 markUsed st (jsOr req.state ""), 1⟩ := by
              unfold exchangeToken
              simp [hcode, hstate, hget, hused, htok]
            rw [heq] at hmem
            simp [jsonStrings_errorBodyWithDetails] at hmem
            rcases hmem with hmem | hmem <;> simp [exchangeFailureStrings, hmem]
          | true =>
            cases herr : jsTruthy prov.tokenData.error with
            | true =>
              have heq : exchangeToken cfg st req prov =
                  ⟨⟨400, errorBody (jsOr prov.tokenData.error_description
                      (jsOr prov.tokenData.error ""))⟩,
                   markUsed st (jsOr req.state ""), 1⟩ := by
                unfold exchangeToken
                simp [hcode, hstate, hget, hused, htok, herr]
              rw [heq] at hmem
              simp [jsonStrings_errorBody] at hmem
              rw [hmem]
              exact error_message_mem prov herr
            | false =>
              cases hat : jsTruthy prov.tokenData.access_token with
              | false =>
                have heq : exchangeToken cfg st req prov =
                    ⟨⟨400, errorBody "No access token received from GitHub"⟩,
                     markUsed st (jsOr req.state ""), 1⟩ := by
                  unfold exchangeToken
                  simp [hcode, hstate, hget, hused, htok, herr, hat]
                rw [heq] at hmem
                simp [jsonStrings_errorBody] at hmem
                simp [exchangeFailureStrings, hmem]
              | true =>
                cases huok : prov.userOk with
                | false =>
                  have heq : exchangeToken cfg st req prov =
                      ⟨⟨500, errorBodyWithDetails
                          "Failed to exchange code for access token"
                          "Failed to verify access token"⟩,
                       markUsed st (jsOr req.state ""), 2⟩ := by
                    unfold exchangeToken
                    simp [hcode, hstate, hget, hused, htok, herr, hat, huok]
                  rw [heq] at hmem
                  simp [jsonStrings_errorBodyWithDetails] at hmem
                  rcases hmem with hmem | hmem <;>
                    simp [exchangeFailureStrings, hmem]
                | true =>
                  have heq : exchangeToken cfg st req prov =
                      ⟨⟨200, successBody prov⟩,
                       storeDelete (markUsed st (jsOr req.state ""))
                         (jsOr req.state ""), 2⟩ :=
                    exchangeToken_success_eq cfg st req prov entry
                      hcode hstate hget hused htok herr hat huok
                  rw [heq] at hfail
                  exact absurd rfl hfail

/-- C9: the unknown-token and already-consumed failure cases of the
exchange are answered with the identical response (status and body), so a
caller cannot tell them apart; and no failure body of any endpoint
contains the client secret, which never enters a response (the fixed
literals and provider-supplied strings are the only strings a failure
body can hold). -/
theorem invalid_state_indistinguishable_and_secret_never_leaks :
    (∀ (cfg1 cfg2 : Config) (st : StateStore) (req1 req2 : ExchangeRequest)
        (prov1 prov2 : Provider) (e2 : StateEntry),
        jsTruthy req1.code = true → jsTruthy req1.state = true →
        jsTruthy req2.code = true → jsTruthy req2.state = true →
        storeGet st (jsOr req1.state "") = none →
        storeGet st (jsOr req2.state "") = some e2 → e2.used = true →
        (exchangeToken cfg1 st req1 prov1).response
          = (exchangeToken cfg2 st req2 prov2).response
        ∧ (exchangeToken cfg1 st req1 prov1).response = invalidStateResponse)
    ∧ (∀ (cfg : Config) (st : StateStore) (req : ExchangeRequest) (prov : Provider),
        cfg.clientSecret ∉ exchangeFailureStrings prov →
        (exchangeToken cfg st req prov).response.status ≠ 200 →
        cfg.clientSecret ∉ jsonStrings (exchangeToken cfg st req prov).response.body)
    ∧ (∀ s : String, s ≠ "Endpoint not found" →
        s ∉ jsonStrings notFoundResponse.body)
    ∧ (∀ s : String, s ≠ "Failed to generate OAuth URL" →
        s ∉ jsonStrings urlErrorResponse.body)
    ∧ (∀ s : String, s ≠ "Internal server error" →
        s ∉ jsonStrings internalErrorResponse.body) := by
  refine ⟨?_, ?_, ?_, ?_, ?_⟩
  · intro cfg1 cfg2 st req1 req2 prov1 prov2 e2 hc1 hs1 hc2 hs2 hn hsome hused
    have h1 : exchangeToken cfg1 st req1 prov1 = ⟨invalidStateResponse, st, 0⟩ :=
      exchangeToken_rejects_of_bad_state cfg1 st req1 prov1 hc1 hs1 (Or.inl hn)
    have h2 : exchangeToken cfg2 st req2 prov2 = ⟨invalidStateResponse, st, 0⟩ :=
      exchangeToken_rejects_of_bad_state cfg2 st req2 prov2 hc2 hs2
        (Or.inr ⟨e2, hsome, hused⟩)
    rw [h1, h2]
    exact ⟨rfl, rfl⟩
  · intro cfg st req prov hsec hfail hmem
    exact hsec (exchange_failure_body_strings cfg st req prov cfg.clientSecret hmem hfail)
  · intro s hne hmem
    simp [notFoundResponse, jsonStrings_errorBody] at hmem
    exact hne hmem
  · intro s hne hmem
    simp [urlErrorResponse, jsonStrings_errorBody] at hmem
    exact hne hmem
  · intro s hne hmem
    simp [internalErrorResponse, jsonStrings_errorBody] at hmem
    exact hne hmem

/-- Witness for C9: an unknown token and a consumed token produce the
same response, and the sample secret is absent from a concrete failure
body. -/
theorem invalid_state_indistinguishable_witness :
    (exchangeToken sampleConfig [("used9", ⟨0, true⟩)]
        ⟨some "c9", some "gone9"⟩ sampleProvider).response
      = (exchangeToken sampleConfig [("used9", ⟨0, true⟩)]
        ⟨some "c9", some "used9"⟩ c8Provider).response
    ∧ "csecret" ∉ jsonStrings (exchangeToken sampleConfig [("used9", ⟨0, true⟩)]
        ⟨some "c9", some "gone9"⟩ sampleProvider).response.body := by
  have h := invalid_state_indistinguishable_and_secret_never_leaks
  refine ⟨(h.1 sampleConfig sampleConfig [("used9", ⟨0, true⟩)]
      ⟨some "c9", some "gone9"⟩ ⟨some "c9", some "used9"⟩
      sampleProvider c8Provider ⟨0, true⟩
      rfl rfl rfl rfl rfl rfl rfl).1, ?_⟩
  exact h.2.1 sampleConfig [("used9", ⟨0, true⟩)]
    ⟨some "c9", some "gone9"⟩ sampleProvider (by decide) (by decide)

end DevDash
